import Mathlib

/-!
Verification of the finllmbot backend core against its specification.

The repository ships the React front end; the FastAPI backend module
(`enhanced_fintech_main.py`, referenced by the deployment checklist) is not
present in the tree, so the backend components (QuotaTracker,
MarketDataGateway, InferenceClient, AnalysisOrchestrator) are modelled from
the specification's own words.  The front-end chat client
(`frontend/src/components/ChatInterface.js`) is embedded from its source.

Time is modelled as a natural-number clock, monetary quantities and scores
as rationals.
-/

namespace FinLLMBot

/-! ## QuotaTracker -/

/-- Modelled from the spec: `ProviderQuota` (section 3, Data Model) — the
backend source file holding it is missing from the tree.  One instance per
provider: `provider_id`, `limit`, `used`, `window_start`, plus the window
length derived from `window_kind` (per-day or per-minute), here carried
directly as `window_length`. -/
structure ProviderQuota where
  provider_id : String
  limit : Nat
  used : Nat
  window_start : Nat
  window_length : Nat
deriving DecidableEq, Repr

/-- Modelled from the spec: the rollover test of `QuotaTracker.try_consume`
(section 4.1) — "if the current time is past `window_start + window_length`". -/
def rolloverDue (q : ProviderQuota) (now : Nat) : Bool :=
  q.window_start + q.window_length < now

/-- Modelled from the spec: the window rollover of `QuotaTracker` (section
4.1) — "reset `used` to 0 and `window_start` to now before checking
capacity". -/
def rollover (q : ProviderQuota) (now : Nat) : ProviderQuota :=
  if rolloverDue q now then { q with used := 0, window_start := now } else q

/-- Modelled from the spec: `QuotaTracker.try_consume(provider_id) -> bool`
(section 4.1) — the backend source implementing it is missing from the tree.
On each call: roll the window over if due, then, if the current window has
capacity, increment `used` and return true, otherwise return false.
The boolean result is paired with the provider's quota after the call. -/
def try_consume (q : ProviderQuota) (now : Nat) : Bool × ProviderQuota :=
  let q' := rollover q now
  if q'.used < q'.limit then (true, { q' with used := q'.used + 1 }) else (false, q')

/-- Folding a sequence of `try_consume` calls (one clock reading per call)
over a quota, keeping only the quota state. -/
def consumeSeq (q : ProviderQuota) (ts : List Nat) : ProviderQuota :=
  ts.foldl (fun s t => (try_consume s t).2) q

/-- Counting run: `consumeRun q now n` performs `n` consecutive
`try_consume` calls at clock reading `now` and returns the number of calls
that were granted together with the final quota state. -/
def consumeRun (q : ProviderQuota) (now : Nat) : Nat → Nat × ProviderQuota
  | 0 => (0, q)
  | n + 1 =>
    ((if (try_consume q now).1 then 1 else 0) +
        (consumeRun (try_consume q now).2 now n).1,
      (consumeRun (try_consume q now).2 now n).2)

theorem try_consume_limit (q : ProviderQuota) (now : Nat) :
    (try_consume q now).2.limit = q.limit := by
  unfold try_consume rollover
  by_cases h : rolloverDue q now <;> simp [h] <;> split <;> rfl

theorem try_consume_used_le (q : ProviderQuota) (now : Nat)
    (h : q.used ≤ q.limit) : (try_consume q now).2.used ≤ q.limit := by
  unfold try_consume rollover
  by_cases hd : rolloverDue q now <;> simp [hd] <;> split <;> simp_all <;> omega

theorem consumeSeq_used_le (q : ProviderQuota) (ts : List Nat)
    (h : q.used ≤ q.limit) : (consumeSeq q ts).used ≤ q.limit := by
  induction ts generalizing q with
  | nil => exact h
  | cons t ts ih =>
    have h1 := try_consume_used_le q t h
    have h2 := try_consume_limit q t
    have := ih (try_consume q t).2 (by omega)
    simpa [consumeSeq, h2] using this

theorem try_consume_full (q : ProviderQuota) (now : Nat)
    (hfull : q.used = q.limit) (hdue : rolloverDue q now = false) :
    try_consume q now = (false, q) := by
  unfold try_consume rollover
  simp [hdue, hfull]

/-- C1: starting from any quota state respecting its limit, no sequence of
`try_consume` calls ever drives `used` above `limit`; and once
`used = limit`, a call inside the current window (no rollover due) is
refused — it returns `false` and leaves the quota unchanged, so nothing is
sent upstream — until the window resets. -/
theorem quota_used_never_exceeds_limit (q : ProviderQuota) (ts : List Nat)
    (now : Nat) (h : q.used ≤ q.limit) :
    (consumeSeq q ts).used ≤ q.limit ∧
      (q.used = q.limit → rolloverDue q now = false →
        try_consume q now = (false, q)) :=
  ⟨consumeSeq_used_le q ts h, fun hfull hdue => try_consume_full q now hfull hdue⟩

theorem quota_used_never_exceeds_limit_witness :
    (consumeSeq ⟨"alpha_vantage", 2, 2, 0, 10⟩ [1, 2, 3]).used ≤ 2 ∧
      ((2 : Nat) = 2 → rolloverDue ⟨"alpha_vantage", 2, 2, 0, 10⟩ 3 = false →
        try_consume ⟨"alpha_vantage", 2, 2, 0, 10⟩ 3 =
          (false, ⟨"alpha_vantage", 2, 2, 0, 10⟩)) :=
  quota_used_never_exceeds_limit ⟨"alpha_vantage", 2, 2, 0, 10⟩ [1, 2, 3] 3
    (by decide)

/-- C2 counterexample: the claim "otherwise returns false while leaving the
quota state unchanged" fails for a quota of limit 0 whose window has
expired: the call returns false, yet the rollover has moved `window_start`
(and would have cleared `used`), so the state is mutated. -/
theorem try_consume_false_mutates :
    (try_consume ⟨"alpha_vantage", 0, 0, 0, 1⟩ 5).1 = false ∧
      (try_consume ⟨"alpha_vantage", 0, 0, 0, 1⟩ 5).2 ≠
        ⟨"alpha_vantage", 0, 0, 0, 1⟩ := by
  constructor <;> decide

/-- C2 (amended): `try_consume` first rolls the window over if due; if the
post-rollover window has capacity (`used < limit`) it returns true with
`used` one greater than its post-rollover value, and otherwise it returns
false with the state unchanged except for the rollover itself (on a failing
call a rollover can only happen when `limit = 0`). -/
theorem try_consume_contract (q : ProviderQuota) (now : Nat) :
    ((rollover q now).used < (rollover q now).limit →
      try_consume q now =
        (true, { rollover q now with used := (rollover q now).used + 1 })) ∧
    (¬ (rollover q now).used < (rollover q now).limit →
      try_consume q now = (false, rollover q now)) := by
  unfold try_consume
  constructor <;> intro h <;> simp [h]

theorem try_consume_contract_witness :
    (try_consume ⟨"finnhub", 3, 1, 0, 60⟩ 10 =
      (true, ⟨"finnhub", 3, 2, 0, 60⟩)) ∧
    (try_consume ⟨"finnhub", 3, 3, 0, 60⟩ 10 =
      (false, ⟨"finnhub", 3, 3, 0, 60⟩)) :=
  ⟨(try_consume_contract ⟨"finnhub", 3, 1, 0, 60⟩ 10).1 (by decide),
   (try_consume_contract ⟨"finnhub", 3, 3, 0, 60⟩ 10).2 (by decide)⟩

/-- C3: when the current time is past `window_start + window_length`,
`try_consume` behaves exactly as if `used` were reset to 0 and
`window_start` to now before the capacity check; consequently any provider
with a positive limit — included a previously exhausted one — regains
capacity: the call is granted and leaves `used = 1`, `window_start = now`. -/
theorem try_consume_rollover (q : ProviderQuota) (now : Nat)
    (hdue : rolloverDue q now = true) :
    try_consume q now =
      try_consume { q with used := 0, window_start := now } now ∧
    (0 < q.limit →
      try_consume q now =
        (true, { q with used := 1, window_start := now })) := by
  have hfresh : rolloverDue { q with used := 0, window_start := now } now = false := by
    simp [rolloverDue]
  constructor
  · unfold try_consume rollover
    simp [hdue, hfresh]
  · intro hpos
    unfold try_consume rollover
    simp [hdue, hpos]

theorem try_consume_rollover_witness :
    (try_consume ⟨"alpha_vantage", 2, 2, 0, 10⟩ 11 =
      try_consume ⟨"alpha_vantage", 2, 0, 11, 10⟩ 11) ∧
    ((0 : Nat) < 2 →
      try_consume ⟨"alpha_vantage", 2, 2, 0, 10⟩ 11 =
        (true, ⟨"alpha_vantage", 2, 1, 11, 10⟩)) :=
  try_consume_rollover ⟨"alpha_vantage", 2, 2, 0, 10⟩ 11 (by decide)

theorem try_consume_no_rollover (q : ProviderQuota) (now : Nat)
    (hdue : rolloverDue q now = false) :
    try_consume q now =
      (if q.used < q.limit then
        (true, { q with used := q.used + 1 }) else (false, q)) := by
  unfold try_consume rollover
  simp [hdue]

theorem consumeRun_count (q : ProviderQuota) (now n : Nat)
    (hdue : rolloverDue q now = false) (h : q.used ≤ q.limit) :
    (consumeRun q now n).1 = min n (q.limit - q.used) ∧
      (consumeRun q now n).2.used = min (q.used + n) q.limit := by
  induction n generalizing q with
  | zero => simp [consumeRun]; omega
  | succ n ih =>
    rw [consumeRun, try_consume_no_rollover q now hdue]
    by_cases hc : q.used < q.limit
    · rw [if_pos hc]
      have hdue' : rolloverDue { q with used := q.used + 1 } now = false := hdue
      have hih := ih { q with used := q.used + 1 } hdue' (Nat.succ_le_of_lt hc)
      have h1 : (consumeRun { q with used := q.used + 1 } now n).1 =
          min n (q.limit - (q.used + 1)) := hih.1
      have h2 : (consumeRun { q with used := q.used + 1 } now n).2.used =
          min (q.used + 1 + n) q.limit := hih.2
      simp only [h1, h2, if_true]
      constructor <;> omega
    · rw [if_neg hc]
      have hih := ih q hdue h
      simp only [hih.1, hih.2, Bool.false_eq_true, if_false]
      constructor <;> omega

/-- C9: the spec makes the rollover check plus consumption a single atomic
unit, so any schedule of N simultaneous `try_consume` calls is equivalent
to N consecutive atomic calls at the same clock reading.  Against a quota
with `limit = K` and `used = 0` inside its window, N such calls yield
exactly `min N K` grants and `N - min N K` refusals, with `used` ending at
`min N K` — no caller is granted a slot once capacity is exhausted. -/
theorem try_consume_n_simultaneous (pid : String) (K ws wl now n : Nat)
    (hdue : rolloverDue ⟨pid, K, 0, ws, wl⟩ now = false) :
    (consumeRun ⟨pid, K, 0, ws, wl⟩ now n).1 = min n K ∧
      n - (consumeRun ⟨pid, K, 0, ws, wl⟩ now n).1 = n - min n K ∧
      (consumeRun ⟨pid, K, 0, ws, wl⟩ now n).2.used = min n K := by
  have := consumeRun_count ⟨pid, K, 0, ws, wl⟩ now n hdue (by simp)
  simp only at this
  refine ⟨by simp [this.1], by simp [this.1], by simpa using this.2⟩

theorem try_consume_n_simultaneous_witness :
    (consumeRun ⟨"alpha_vantage", 2, 0, 0, 10⟩ 3 5).1 = min 5 2 ∧
      5 - (consumeRun ⟨"alpha_vantage", 2, 0, 0, 10⟩ 3 5).1 = 5 - min 5 2 ∧
      (consumeRun ⟨"alpha_vantage", 2, 0, 0, 10⟩ 3 5).2.used = min 5 2 :=
  try_consume_n_simultaneous "alpha_vantage" 2 0 10 3 5 (by decide)

/-! ## MarketDataGateway -/

/-- The two market-data sources of the gateway (spec section 2: primary =
Alpha Vantage daily quota, secondary = Finnhub per-minute quota). -/
inductive Provider
  | primary
  | secondary
deriving DecidableEq, Repr

/-- Modelled from the spec: the per-provider failure reasons of section 7 —
`QuotaExceeded` (local refusal, never sent upstream) and
`ProviderTimeout`/`ProviderError` (upstream transport/provider failure,
malformed or error response), the latter collapsed into one constructor. -/
inductive FailReason
  | quotaExceeded
  | providerError
deriving DecidableEq, Repr

/-- A schema-valid provider response body: price and percent change.  An
upstream call that fails, times out or returns a malformed body is
represented as `none` at the call site. -/
structure RawQuote where
  price : ℚ
  change_percent : ℚ
deriving DecidableEq, Repr

/-- Modelled from the spec: `MarketQuote` (section 3) — normalized into one
shape regardless of the origin provider's schema. -/
structure MarketQuote where
  symbol : String
  price : ℚ
  change_percent : ℚ
  provider : Provider
  retrieved_at : Nat
deriving DecidableEq, Repr

/-- Modelled from the spec: the `QuoteUnavailable` error (section 4.2 step
3), carrying which providers were attempted and their failure reasons. -/
structure QuoteUnavailable where
  attempts : List (Provider × FailReason)
deriving DecidableEq, Repr

/-- The gateway's shared state: one quota per provider. -/
structure MDState where
  primaryQuota : ProviderQuota
  secondaryQuota : ProviderQuota
deriving DecidableEq, Repr

/-- Which providers received an outbound call during one `get_quote`
request (instrumentation for the never-calls / only-secondary claims). -/
structure CallLog where
  primaryCalled : Bool
  secondaryCalled : Bool
deriving DecidableEq, Repr

/-- Normalization of a raw provider body into the single `MarketQuote`
shape, tagged with the provider that answered. -/
def normalize (symbol : String) (p : Provider) (now : Nat) (r : RawQuote) :
    MarketQuote :=
  ⟨symbol, r.price, r.change_percent, p, now⟩

/-- Modelled from the spec: `MarketDataGateway.get_quote(symbol)` (section
4.2) — the backend source implementing it is missing from the tree.
`presp` and `sresp` are the outcomes the primary and secondary providers
would return if called (`none` = transport failure, timeout, or
malformed/error response).  Steps: (1) if `try_consume(primary)` succeeds,
call the primary; a valid response is normalized and tagged primary.
(2) On primary quota exhaustion or primary failure, try the secondary the
same way.  (3) Otherwise fail with `QuoteUnavailable` listing both
attempts.  Fallback is one-shot; quota is not refunded on failure. -/
def get_quote (st : MDState) (now : Nat) (symbol : String)
    (presp sresp : Option RawQuote) :
    Except QuoteUnavailable MarketQuote × MDState × CallLog :=
  if (try_consume st.primaryQuota now).1 then
    match presp with
    | some r =>
        (Except.ok (normalize symbol Provider.primary now r),
          ⟨(try_consume st.primaryQuota now).2, st.secondaryQuota⟩,
          ⟨true, false⟩)
    | none =>
        if (try_consume st.secondaryQuota now).1 then
          match sresp with
          | some r =>
              (Except.ok (normalize symbol Provider.secondary now r),
                ⟨(try_consume st.primaryQuota now).2,
                  (try_consume st.secondaryQuota now).2⟩,
                ⟨true, true⟩)
          | none =>
              (Except.error ⟨[(Provider.primary, FailReason.providerError),
                  (Provider.secondary, FailReason.providerError)]⟩,
                ⟨(try_consume st.primaryQuota now).2,
                  (try_consume st.secondaryQuota now).2⟩,
                ⟨true, true⟩)
        else
          (Except.error ⟨[(Provider.primary, FailReason.providerError),
              (Provider.secondary, FailReason.quotaExceeded)]⟩,
            ⟨(try_consume st.primaryQuota now).2,
              (try_consume st.secondaryQuota now).2⟩,
            ⟨true, false⟩)
  else
    if (try_consume st.secondaryQuota now).1 then
      match sresp with
      | some r =>
          (Except.ok (normalize symbol Provider.secondary now r),
            ⟨(try_consume st.primaryQuota now).2,
              (try_consume st.secondaryQuota now).2⟩,
            ⟨false, true⟩)
      | none =>
          (Except.error ⟨[(Provider.primary, FailReason.quotaExceeded),
              (Provider.secondary, FailReason.providerError)]⟩,
            ⟨(try_consume st.primaryQuota now).2,
              (try_consume st.secondaryQuota now).2⟩,
            ⟨false, true⟩)
    else
      (Except.error ⟨[(Provider.primary, FailReason.quotaExceeded),
          (Provider.secondary, FailReason.quotaExceeded)]⟩,
        ⟨(try_consume st.primaryQuota now).2,
          (try_consume st.secondaryQuota now).2⟩,
        ⟨false, false⟩)

/-- Whether a `get_quote` outcome is the `QuoteUnavailable` failure. -/
def isErr : Except QuoteUnavailable MarketQuote → Bool
  | Except.error _ => true
  | Except.ok _ => false

/-- The provider tag of a successful `get_quote` outcome, `none` on
failure. -/
def providerTag : Except QuoteUnavailable MarketQuote → Option Provider
  | Except.ok mq => some mq.provider
  | Except.error _ => none

/-- The attempts list carried by a failed `get_quote` outcome, `[]` on
success. -/
def attemptsOf : Except QuoteUnavailable MarketQuote → List (Provider × FailReason)
  | Except.error e => e.attempts
  | Except.ok _ => []

/-- C4: whenever the primary quota grants the call and the primary provider
returns a valid response, `get_quote` returns that response normalized and
tagged `provider = primary`; the secondary provider receives no outbound
call and its quota is untouched. -/
theorem get_quote_primary_wins (st : MDState) (now : Nat) (symbol : String)
    (r : RawQuote) (sresp : Option RawQuote)
    (hcap : (try_consume st.primaryQuota now).1 = true) :
    get_quote st now symbol (some r) sresp =
      (Except.ok (normalize symbol Provider.primary now r),
        ⟨(try_consume st.primaryQuota now).2, st.secondaryQuota⟩,
        ⟨true, false⟩) := by
  simp [get_quote, hcap]

theorem get_quote_primary_wins_witness :
    get_quote ⟨⟨"alpha_vantage", 25, 0, 0, 86400⟩, ⟨"finnhub", 60, 0, 0, 60⟩⟩
        100 "AAPL" (some ⟨187, 1⟩) none =
      (Except.ok (normalize "AAPL" Provider.primary 100 ⟨187, 1⟩),
        ⟨(try_consume ⟨"alpha_vantage", 25, 0, 0, 86400⟩ 100).2,
          ⟨"finnhub", 60, 0, 0, 60⟩⟩,
        ⟨true, false⟩) :=
  get_quote_primary_wins ⟨⟨"alpha_vantage", 25, 0, 0, 86400⟩,
    ⟨"finnhub", 60, 0, 0, 60⟩⟩ 100 "AAPL" ⟨187, 1⟩ none (by decide)

/-- C5: when the primary quota is exhausted in its current window
(`used = limit`, no rollover due), `get_quote` makes no outbound call to
the primary, leaves the primary quota unchanged, and any successful result
is not tagged primary (only the secondary is attempted). -/
theorem get_quote_primary_exhausted (st : MDState) (now : Nat)
    (symbol : String) (presp sresp : Option RawQuote)
    (hfull : st.primaryQuota.used = st.primaryQuota.limit)
    (hdue : rolloverDue st.primaryQuota now = false) :
    (get_quote st now symbol presp sresp).2.2.primaryCalled = false ∧
      (get_quote st now symbol presp sresp).2.1.primaryQuota = st.primaryQuota ∧
      providerTag (get_quote st now symbol presp sresp).1 ≠ some Provider.primary := by
  have hfc := try_consume_full st.primaryQuota now hfull hdue
  by_cases h2 : (try_consume st.secondaryQuota now).1 <;>
    cases sresp <;>
      simp [get_quote, hfc, h2, providerTag, normalize]

theorem get_quote_primary_exhausted_witness :
    (get_quote ⟨⟨"alpha_vantage", 25, 25, 0, 86400⟩, ⟨"finnhub", 60, 0, 0, 60⟩⟩
        100 "AAPL" (some ⟨187, 1⟩) (some ⟨188, 2⟩)).2.2.primaryCalled = false ∧
      (get_quote ⟨⟨"alpha_vantage", 25, 25, 0, 86400⟩, ⟨"finnhub", 60, 0, 0, 60⟩⟩
          100 "AAPL" (some ⟨187, 1⟩) (some ⟨188, 2⟩)).2.1.primaryQuota =
        ⟨"alpha_vantage", 25, 25, 0, 86400⟩ ∧
      providerTag (get_quote ⟨⟨"alpha_vantage", 25, 25, 0, 86400⟩,
          ⟨"finnhub", 60, 0, 0, 60⟩⟩
          100 "AAPL" (some ⟨187, 1⟩) (some ⟨188, 2⟩)).1 ≠ some Provider.primary :=
  get_quote_primary_exhausted ⟨⟨"alpha_vantage", 25, 25, 0, 86400⟩,
    ⟨"finnhub", 60, 0, 0, 60⟩⟩ 100 "AAPL" (some ⟨187, 1⟩) (some ⟨188, 2⟩)
    (by decide) (by decide)

/-- C6: `get_quote` fails exactly when the primary leg fails (quota refusal
or invalid/absent response) and the secondary leg fails likewise; the
failure carries both attempted providers, each with `quotaExceeded` when
its quota refused the call and `providerError` when the call itself failed.
In every other case the outcome is a `MarketQuote`. -/
theorem get_quote_unavailable_iff (st : MDState) (now : Nat)
    (symbol : String) (presp sresp : Option RawQuote) :
    (isErr (get_quote st now symbol presp sresp).1 =
      ((!(try_consume st.primaryQuota now).1 || presp.isNone) &&
        (!(try_consume st.secondaryQuota now).1 || sresp.isNone))) ∧
    attemptsOf (get_quote st now symbol presp sresp).1 =
      (if isErr (get_quote st now symbol presp sresp).1 then
        [(Provider.primary,
            if (try_consume st.primaryQuota now).1 then FailReason.providerError
            else FailReason.quotaExceeded),
          (Provider.secondary,
            if (try_consume st.secondaryQuota now).1 then FailReason.providerError
            else FailReason.quotaExceeded)]
      else []) := by
  by_cases h1 : (try_consume st.primaryQuota now).1 <;>
    by_cases h2 : (try_consume st.secondaryQuota now).1 <;>
      cases presp <;> cases sresp <;>
        simp [get_quote, isErr, attemptsOf, h1, h2]

/-! ## AnalysisOrchestrator -/

/-- Modelled from the spec: `AnalysisRequest` (section 3) — prompt,
analysis type (open-ended string accepted), and a length bound; the backend
source holding it is missing from the tree.  `max_length` is an integer so
that the `max_length <= 0` validity check is meaningful. -/
structure AnalysisRequest where
  prompt : String
  analysis_type : String
  max_length : Int
deriving DecidableEq, Repr

/-- Modelled from the spec: `AnalysisResult` (section 3). -/
structure AnalysisResult where
  generated_text : String
  model_used : String
  confidence_score : ℚ
  processing_time : ℚ
deriving DecidableEq, Repr

/-- The orchestrator's failure taxonomy (spec sections 4.4 and 7):
`InvalidRequest` for caller errors and `AnalysisFailed` when inference
fails with no remaining fallback. -/
inductive AnalysisError
  | invalidRequest
  | analysisFailed
deriving DecidableEq, Repr

/-- A successful inference-backend response: the generated text, the
identifier of the model that served it, and the optional model-reported
likelihood signal. -/
structure InfResponse where
  text : String
  model_used : String
  likelihood : Option ℚ
deriving DecidableEq, Repr

/-- Modelled from the spec: the confidence-score derivation (section 4.4
step 5) — a deterministic normalization of whatever signal the backend
exposes: a model-reported likelihood clamped into [0,1] when present,
otherwise a fixed heuristic proportional to response length, capped at 1. -/
def confidence_of (r : InfResponse) : ℚ :=
  match r.likelihood with
  | some l => max 0 (min 1 l)
  | none => min 1 ((r.text.length : ℚ) / 100)

/-- Modelled from the spec: `AnalysisOrchestrator.analyze` (section 4.4) —
the backend source implementing it is missing from the tree.  `primaryResp`
is the outcome `InferenceClient.generate` would produce for the configured
model (`none` = `InferenceError`); `fallbackResp` is `none` when no
fallback model is configured and otherwise holds that model's outcome.
Returns the outcome paired with the number of `generate` invocations made.
Steps: validate (`InvalidRequest` on empty prompt or non-positive
`max_length`, with no inference call); invoke generate; on failure retry
once against the fallback model if configured; on success return the
result with its derived confidence score and elapsed wall-clock time. -/
def analyze (req : AnalysisRequest) (startT endT : ℚ)
    (primaryResp : Option InfResponse)
    (fallbackResp : Option (Option InfResponse)) :
    Except AnalysisError AnalysisResult × Nat :=
  if req.prompt = "" ∨ req.max_length ≤ 0 then
    (Except.error AnalysisError.invalidRequest, 0)
  else
    match primaryResp with
    | some r =>
        (Except.ok ⟨r.text, r.model_used, confidence_of r, endT - startT⟩, 1)
    | none =>
        match fallbackResp with
        | none => (Except.error AnalysisError.analysisFailed, 1)
        | some (some r) =>
            (Except.ok ⟨r.text, r.model_used, confidence_of r, endT - startT⟩, 2)
        | some none => (Except.error AnalysisError.analysisFailed, 2)

/-- The confidence score of an `analyze` outcome; 0 on failure, so that
bounds can be stated without binders. -/
def confidenceOf : Except AnalysisError AnalysisResult → ℚ
  | Except.ok r => r.confidence_score
  | Except.error _ => 0

/-- C7: a request with an empty prompt or a non-positive `max_length` fails
with `InvalidRequest` and `InferenceClient.generate` is never invoked (the
call count is 0), for every state of the inference backend. -/
theorem analyze_invalid_request (req : AnalysisRequest) (startT endT : ℚ)
    (primaryResp : Option InfResponse)
    (fallbackResp : Option (Option InfResponse))
    (hbad : req.prompt = "" ∨ req.max_length ≤ 0) :
    analyze req startT endT primaryResp fallbackResp =
      (Except.error AnalysisError.invalidRequest, 0) := by
  simp [analyze, hbad]

theorem analyze_invalid_request_witness :
    analyze ⟨"", "general", 200⟩ 0 1 (some ⟨"text", "gpt2", none⟩) none =
      (Except.error AnalysisError.invalidRequest, 0) :=
  analyze_invalid_request ⟨"", "general", 200⟩ 0 1 (some ⟨"text", "gpt2", none⟩)
    none (Or.inl rfl)

theorem confidence_of_mem_unit (r : InfResponse) :
    0 ≤ confidence_of r ∧ confidence_of r ≤ 1 := by
  unfold confidence_of
  cases r.likelihood with
  | none =>
    constructor
    · exact le_min (by norm_num) (by positivity)
    · exact min_le_left _ _
  | some l =>
    constructor
    · exact le_max_left _ _
    · exact max_le (by norm_num) (min_le_left _ _)

/-- C8: for every inference-backend outcome, the confidence score of the
`AnalysisResult` returned by `analyze` lies in the closed interval
[0, 1] (failed outcomes carry the default 0, also in the interval). -/
theorem analyze_confidence_in_unit (req : AnalysisRequest) (startT endT : ℚ)
    (primaryResp : Option InfResponse)
    (fallbackResp : Option (Option InfResponse)) :
    0 ≤ confidenceOf (analyze req startT endT primaryResp fallbackResp).1 ∧
      confidenceOf (analyze req startT endT primaryResp fallbackResp).1 ≤ 1 := by
  unfold analyze
  by_cases hbad : req.prompt = "" ∨ req.max_length ≤ 0
  · simp [hbad, confidenceOf]
  · cases primaryResp with
    | some r => simpa [hbad, confidenceOf] using confidence_of_mem_unit r
    | none =>
      cases fallbackResp with
      | none => simp [hbad, confidenceOf]
      | some fr =>
        cases fr with
        | some r => simpa [hbad, confidenceOf] using confidence_of_mem_unit r
        | none => simp [hbad, confidenceOf]

/-! ## Front-end chat client (`frontend/src/components/ChatInterface.js`) -/

/-- The JSON body `sendMessage` posts to the backend
(ChatInterface.js, lines 37-41). -/
structure AnalyzeBody where
  prompt : String
  analysis_type : String
  max_length : Nat
deriving DecidableEq, Repr

/-- An outbound HTTP POST issued by the chat client: target URL and JSON
body. -/
structure AnalyzeRequest where
  url : String
  body : AnalyzeBody
deriving DecidableEq, Repr

/-- The guard `!inputMessage.trim()` of `sendMessage` (ChatInterface.js,
line 19): in JavaScript the trimmed string is falsy exactly when it is
empty, i.e. when every character of the input is whitespace. -/
def isBlank (s : String) : Bool :=
  s.data.all Char.isWhitespace

/-- The request-building logic of `sendMessage` (ChatInterface.js, lines
18-42): a guard returns early when the trimmed input is empty (an empty
string is falsy in JavaScript), otherwise one POST to
`/analyze-financial-data` is issued whose body carries the raw input as
`prompt`, the literal `"general"` as `analysis_type` and the literal `200`
as `max_length`. -/
def sendMessageRequest (inputMessage : String) : Option AnalyzeRequest :=
  if isBlank inputMessage then none
  else some ⟨"http://localhost:8000/analyze-financial-data",
    ⟨inputMessage, "general", 200⟩⟩

/-- C10: every request body that `sendMessage` actually issues (the guard
admits exactly the inputs with non-blank trimmed text) goes to the
`/analyze-financial-data` endpoint and carries `analysis_type = "general"`
and `max_length = 200` regardless of the input; only `prompt` varies, and
it equals the raw input text. -/
theorem sendMessage_fixed_fields (s : String) (req : AnalyzeRequest)
    (h : sendMessageRequest s = some req) :
    req.url = "http://localhost:8000/analyze-financial-data" ∧
      req.body.analysis_type = "general" ∧
      req.body.max_length = 200 ∧
      req.body.prompt = s := by
  unfold sendMessageRequest at h
  by_cases ht : isBlank s
  · simp [ht] at h
  · simp [ht] at h
    subst h
    exact ⟨rfl, rfl, rfl, rfl⟩

theorem sendMessage_fixed_fields_witness :
    (AnalyzeRequest.mk "http://localhost:8000/analyze-financial-data"
        ⟨"What are the current market trends?", "general", 200⟩).url =
      "http://localhost:8000/analyze-financial-data" ∧
    (AnalyzeRequest.mk "http://localhost:8000/analyze-financial-data"
        ⟨"What are the current market trends?", "general", 200⟩).body.analysis_type =
      "general" ∧
    (AnalyzeRequest.mk "http://localhost:8000/analyze-financial-data"
        ⟨"What are the current market trends?", "general", 200⟩).body.max_length =
      200 ∧
    (AnalyzeRequest.mk "http://localhost:8000/analyze-financial-data"
        ⟨"What are the current market trends?", "general", 200⟩).body.prompt =
      "What are the current market trends?" :=
  sendMessage_fixed_fields "What are the current market trends?"
    ⟨"http://localhost:8000/analyze-financial-data",
      ⟨"What are the current market trends?", "general", 200⟩⟩ (by decide)

end FinLLMBot
